import Mathlib

/-!
Verification of the mcp-seo text/markup analysis engine.

Shallow embedding of the repository's analyzers:

* `tokenize`, `STOP_WORDS`, `getNgrams`, `topN`, `keywordDensity`
  (src/tools/keyword-density.ts),
* `countSyllables`, `splitSentences`, `splitWords`, `readability`
  (src/tools/readability.ts),
* `headingStructure` (src/tools/heading-structure.ts), modelled as a
  function of the extracted heading sequence (page fetching and the
  HTML heading extraction are the external collaborator stage),
* `metaTags` (src/tools/meta-tags.ts), modelled as a function of the
  extracted title, meta tags, and canonical link (same external stage).

JavaScript strings are modelled as Lean `String`s (with `List Char`
data); ASCII case-folding, whitespace and trimming model the JS
operations, which agree on the ASCII inputs the analyzers handle.
JavaScript floating-point arithmetic is idealized as exact rational
arithmetic (`ℚ`), with `Math.round`/`toFixed` modelled as round-half-up
on rationals.  JS `Map`s and plain objects are modelled as insertion
ordered association lists with in-place update, matching JS iteration
order.  Each analyzer, which in the source serializes its report with
`JSON.stringify`, here returns the structured report record (or the
error object) that the source serializes.
-/

set_option maxRecDepth 16000

/-- ASCII whitespace, modelling the `\s` class of the JS regexes used
for splitting (space, tab, newline, vertical tab, form feed, carriage
return). -/
def isWsChar (c : Char) : Bool :=
  c = ' ' || c = '\t' || c = '\n' || c = '\r' || c = Char.ofNat 11 || c = Char.ofNat 12

/-- Splits a character list into the maximal nonempty runs of
characters not satisfying `p`; the accumulator holds the current run
reversed.  This is JS `String.split` on a one-or-more-separators regex,
with the empty boundary pieces (which every caller filters away)
already dropped. -/
def chunksByAux (p : Char → Bool) : List Char → List Char → List (List Char)
  | [], acc => if acc.isEmpty then [] else [acc.reverse]
  | c :: rest, acc =>
    if p c then
      if acc.isEmpty then chunksByAux p rest []
      else acc.reverse :: chunksByAux p rest []
    else chunksByAux p rest (c :: acc)

/-- Maximal nonempty runs of characters not satisfying `p`. -/
def chunksBy (p : Char → Bool) (l : List Char) : List (List Char) :=
  chunksByAux p l []

/-- JS `String.prototype.toLowerCase`, restricted to the ASCII range the
analyzers act on. -/
def jsLower (s : String) : String := ⟨s.data.map Char.toLower⟩

/-- JS `String.prototype.trim` (strip leading and trailing whitespace). -/
def jsTrim (s : String) : String :=
  ⟨((s.data.dropWhile isWsChar).reverse.dropWhile isWsChar).reverse⟩

/-- The fixed stop-word set of src/tools/keyword-density.ts
(`STOP_WORDS`), in source order. -/
def STOP_WORDS : List String := [
  "a", "an", "the", "and", "or", "but", "in", "on", "at", "to", "for",
  "of", "with", "by", "from", "is", "are", "was", "were", "be", "been",
  "being", "have", "has", "had", "do", "does", "did", "will", "would",
  "could", "should", "may", "might", "shall", "can", "it", "its",
  "this", "that", "these", "those", "i", "you", "he", "she", "we",
  "they", "me", "him", "her", "us", "them", "my", "your", "his",
  "our", "their", "what", "which", "who", "whom", "how", "when",
  "where", "why", "not", "no", "so", "if", "then", "than", "as",
  "up", "out", "about", "into", "over", "after", "also", "just",
  "more", "most", "very", "all", "each", "every", "both", "few",
  "some", "any", "other", "such", "only", "own", "same", "too"]

/-- Characters kept by `tokenize`'s replacement step: after
lowercasing, everything outside `[a-z0-9\s'-]` becomes a space. -/
def isTokenChar (c : Char) : Bool :=
  c.isLower || c.isDigit || c = Char.ofNat 39 || c = '-'

/-- Function `tokenize` of src/tools/keyword-density.ts: lowercase, replace every
character outside `[a-z0-9\s'-]` with a space, split on whitespace runs,
keep tokens of length `> 1`. -/
def tokenize (text : String) : List String :=
  let cleaned := text.data.map (fun c =>
    let c := c.toLower
    if isTokenChar c || isWsChar c then c else ' ')
  ((chunksBy isWsChar cleaned).filter (fun w => 1 < w.length)).map (fun w => (⟨w⟩ : String))

/-- One `Map.set`-style update of an insertion-ordered association
list: increment the count of an existing key in place, else append the
key with count 1.  Models `counts.set(k, (counts.get(k) ?? 0) + 1)` on a
JS `Map`. -/
def bump (m : List (String × Nat)) (k : String) : List (String × Nat) :=
  if m.any (fun p => p.1 = k) then
    m.map (fun p => if p.1 = k then (p.1, p.2 + 1) else p)
  else m ++ [(k, 1)]

/-- The single-word frequency map of `keywordDensity`: every non
stop-word token counted, in first-seen order. -/
def wordCountsOf (words : List String) : List (String × Nat) :=
  words.foldl (fun m w => if STOP_WORDS.contains w then m else bump m w) []

/-- Function `getNgrams` of src/tools/keyword-density.ts: slide a window of size
`n` over the token stream, join with spaces, skip any gram one of whose
space-split members is a stop word, and count the rest. -/
def getNgrams (words : List String) (n : Nat) : List (String × Nat) :=
  (List.range (words.length + 1 - n)).foldl (fun counts i =>
    let gram := String.intercalate " " ((words.drop i).take n)
    let gramWords := gram.splitOn " "
    if gramWords.any (fun w => STOP_WORDS.contains w) then counts
    else bump counts gram) []

/-- Stable insertion used to model the stable JS
`sort((a, b) => b[1] - a[1])`: a new element goes after every element
whose count is at least its own. -/
def insertEntry (p : String × Nat) : List (String × Nat) → List (String × Nat)
  | [] => [p]
  | q :: rest => if q.2 < p.2 then p :: q :: rest else q :: insertEntry p rest

/-- Stable sort by descending count, preserving accumulation order on
ties (JS `Array.prototype.sort` is stable). -/
def sortByCountDesc (l : List (String × Nat)) : List (String × Nat) :=
  l.foldl (fun acc p => insertEntry p acc) []

/-- Density formatting `((count / total) * 100).toFixed(2) + "%"`, with the JS double
arithmetic idealized as exact rational arithmetic and `toFixed`'s
round-half-up to two decimals computed on naturals.  Only evaluated
with `total > 0` (the zero-token case returns the error object before
any division). -/
def densityStr (count total : Nat) : String :=
  let scaled := (count * 10000 * 2 + total) / (2 * total)
  let frac := scaled % 100
  toString (scaled / 100) ++ "." ++
    (if frac < 10 then "0" ++ toString frac else toString frac) ++ "%"

/-- Function `topN` of src/tools/keyword-density.ts: sort the accumulated counts
by descending count (stable), take the first `n`, and attach the
density string.  Entries are `(key, count, density)`. -/
def topN (counts : List (String × Nat)) (n total : Nat) :
    List (String × Nat × String) :=
  ((sortByCountDesc counts).take n).map (fun p => (p.1, p.2, densityStr p.2 total))

/-- Index of the first occurrence of `pat` in a character list, if any
(the scanning core of JS `String.prototype.indexOf` and `includes`). -/
def firstMatch (pat : List Char) : List Char → Option Nat
  | [] => if pat.isPrefixOf ([] : List Char) then some 0 else none
  | c :: rest =>
    if pat.isPrefixOf (c :: rest) then some 0
    else (firstMatch pat rest).map (· + 1)

/-- JS `joined.indexOf(target, idx)`: first occurrence of `pat` in `s`
at position `≥ idx`, as an `Option` instead of `-1`. -/
def indexOfFrom (s pat : List Char) (idx : Nat) : Option Nat :=
  (firstMatch pat (s.drop idx)).map (· + idx)

/-- JS `String.prototype.includes`. -/
def jsIncludes (s sub : String) : Bool :=
  (firstMatch sub.data s.data).isSome

/-- The phrase-counting loop of `keywordDensity`:
`while ((idx = joined.indexOf(target, idx)) !== -1) { count++; idx += target.length; }`.
The loop advances past each match, so it counts non-overlapping
occurrences; `fuel` only bounds the recursion and is always supplied as
`s.length + 1`, which exceeds the loop's possible iteration count
whenever `pat` is nonempty (the only way the branch is reached). -/
def countLoopAux (s pat : List Char) : Nat → Nat → Nat
  | 0, _ => 0
  | fuel + 1, idx =>
    match indexOfFrom s pat idx with
    | none => 0
    | some i => 1 + countLoopAux s pat fuel (i + pat.length)

/-- The lowercased, trimmed target phrase
(`targetKeyword.toLowerCase().trim()`). -/
def normTarget (tk : String) : String := jsTrim (jsLower tk)

/-- JS `target.split(/\s+/)` on an already-trimmed string: the empty
string yields `[""]` (one element), otherwise the whitespace-separated
chunks (no boundary empties, because the string is trimmed). -/
def jsSplitTrimmed (s : String) : List String :=
  if s = "" then [""]
  else (chunksBy isWsChar s.data).map (fun c => (⟨c⟩ : String))

/-- The words of the target phrase, as computed by the source. -/
def targetWordsOf (tk : String) : List String := jsSplitTrimmed (normTarget tk)

/-- Count lookup in the frequency list (`wordCounts.get(target) ?? 0`). -/
def lookupCount (m : List (String × Nat)) (k : String) : Nat :=
  match m.find? (fun p => p.1 = k) with
  | some p => p.2
  | none => 0

/-- The `targetKeyword` entry of the keyword-density report. -/
structure TargetInfo where
  keyword : String
  count : Nat
  density : String
deriving DecidableEq

/-- An entry of `topSingleWords`. -/
structure WordEntry where
  word : String
  count : Nat
  density : String
deriving DecidableEq

/-- An entry of `topBigrams`/`topTrigrams`. -/
structure PhraseEntry where
  phrase : String
  count : Nat
  density : String
deriving DecidableEq

/-- The `KeywordResult` report shape of src/tools/keyword-density.ts. -/
structure KeywordResult where
  totalWords : Nat
  uniqueWords : Nat
  targetKeyword : Option TargetInfo
  topSingleWords : List WordEntry
  topBigrams : List PhraseEntry
  topTrigrams : List PhraseEntry
deriving DecidableEq

/-- Output of `keywordDensity`: either the error object
`{ error: ... }` or the report the source passes to `JSON.stringify`. -/
inductive KOut where
  | err (error : String)
  | ok (r : KeywordResult)
deriving DecidableEq

/-- The error message of the empty-input guard. -/
def noWordsMsg : String := "No words found in the provided text."

/-- Function `keywordDensity` of src/tools/keyword-density.ts.  The optional
`targetKeyword` parameter is `Option String`; `none` models an omitted
argument and, matching JS truthiness of `if (targetKeyword)`, an empty
string also leaves the target analysis `null`. -/
def keywordDensity (text : String) (targetKeyword : Option String) : KOut :=
  let words := tokenize text
  let totalWords := words.length
  if totalWords = 0 then .err noWordsMsg
  else
    let uniqueWords := words.dedup.length
    let wordCounts := wordCountsOf words
    let bigrams := getNgrams words 2
    let trigrams := getNgrams words 3
    let targetResult : Option TargetInfo :=
      match targetKeyword with
      | none => none
      | some tk =>
        if tk = "" then none
        else
          let target := normTarget tk
          let targetWords := jsSplitTrimmed target
          let count :=
            if targetWords.length = 1 then lookupCount wordCounts target
            else
              let joined := String.intercalate " " words
              countLoopAux joined.data target.data (joined.length + 1) 0
          some ⟨tk, count, densityStr count totalWords⟩
    .ok {
      totalWords := totalWords
      uniqueWords := uniqueWords
      targetKeyword := targetResult
      topSingleWords := (topN wordCounts 15 totalWords).map (fun t => ⟨t.1, t.2.1, t.2.2⟩)
      topBigrams := (topN bigrams 10 totalWords).map (fun t => ⟨t.1, t.2.1, t.2.2⟩)
      topTrigrams := (topN trigrams 10 totalWords).map (fun t => ⟨t.1, t.2.1, t.2.2⟩) }

/-- The `totalWords` field of a keyword-density report, if any. -/
def kTotalWords : KOut → Option Nat
  | .err _ => none
  | .ok r => some r.totalWords

/-- The target-keyword count of a keyword-density report, if any. -/
def kTargetCount : KOut → Option Nat
  | .err _ => none
  | .ok r => r.targetKeyword.map (fun t => t.count)

/-- The target-keyword density string of a keyword-density report. -/
def kTargetDensity : KOut → Option String
  | .err _ => none
  | .ok r => r.targetKeyword.map (fun t => t.density)

/-- Characters kept by `splitWords`'s replacement step
(`[a-zA-Z0-9\s'-]`, no lowercasing). -/
def isWordChar (c : Char) : Bool :=
  c.isAlpha || c.isDigit || c = Char.ofNat 39 || c = '-'

/-- Function `splitWords` of src/tools/readability.ts: replace every character
outside `[a-zA-Z0-9\s'-]` with a space, split on whitespace, discard
empties. -/
def splitWords (text : String) : List String :=
  let cleaned := text.data.map (fun c => if isWordChar c || isWsChar c then c else ' ')
  (chunksBy isWsChar cleaned).map (fun w => (⟨w⟩ : String))

/-- A sentence-terminating character (`[.!?]`). -/
def isSentChar (c : Char) : Bool := c = '.' || c = '!' || c = '?'

/-- Function `splitSentences` of src/tools/readability.ts: split on runs of
`[.!?]`, trim each piece, discard empties. -/
def splitSentences (text : String) : List String :=
  ((chunksBy isSentChar text.data).map (fun c => jsTrim (⟨c⟩ : String))).filter
    (fun s => s ≠ "")

/-- The vowels of the syllable heuristic (`"aeiouy"`). -/
def isVowelCh (c : Char) : Bool :=
  c = 'a' || c = 'e' || c = 'i' || c = 'o' || c = 'u' || c = 'y'

/-- Number of vowel-group starts (`if (isVowel && !prevVowel) count++`). -/
def vowelGroups : List Char → Bool → Nat
  | [], _ => 0
  | c :: rest, prevVowel =>
    let iv := isVowelCh c
    (if iv && !prevVowel then 1 else 0) + vowelGroups rest iv

/-- Function `countSyllables` of src/tools/readability.ts: lowercase, strip
non-letters, floor of 1 for short words, vowel-group count with the
silent-`e` and `-le` adjustments. -/
def countSyllables (w : String) : Nat :=
  let word := (w.data.map Char.toLower).filter Char.isLower
  if word.length ≤ 3 then 1
  else
    let r := word.reverse
    let count := vowelGroups word false
    let count := if r.head? = some 'e' ∧ 1 < count then count - 1 else count
    let count :=
      if r.take 2 = ['e', 'l'] ∧ 2 < word.length ∧ ¬(isVowelCh (r.getD 2 'a') = true)
      then count + 1 else count
    if count = 0 then 1 else count

/-- Characters of the input after the last `'\n'` of the run `pre`
(used to resume scanning after a paragraph separator). -/
def afterLastNl (pre : List Char) : List Char :=
  ((pre.reverse).takeWhile (fun c => ¬(c = '\n'))).reverse

theorem length_takeWhile_lt_of_exists {p : Char → Bool} :
    ∀ l : List Char, (∃ x ∈ l, p x = false) → (l.takeWhile p).length < l.length := by
  intro l h
  induction l with
  | nil => obtain ⟨x, hx, _⟩ := h; cases hx
  | cons c rest ih =>
    by_cases hc : p c
    · rw [List.takeWhile_cons_of_pos hc]
      obtain ⟨x, hx, hpx⟩ := h
      rcases List.mem_cons.mp hx with rfl | hxr
      · rw [hc] at hpx; cases hpx
      · exact Nat.succ_lt_succ (ih ⟨x, hxr, hpx⟩)
    · rw [List.takeWhile_cons_of_neg hc]
      exact Nat.succ_pos _

theorem afterLastNl_length_lt {pre : List Char} (h : ∃ x ∈ pre, x = '\n') :
    (afterLastNl pre).length < pre.length := by
  unfold afterLastNl
  rw [List.length_reverse]
  have : ∃ x ∈ pre.reverse, (fun c => ¬(c = '\n') : Char → Bool) x = false := by
    obtain ⟨x, hx, hxe⟩ := h
    subst hxe
    exact ⟨'\n', List.mem_reverse.mpr hx, by simp⟩
  calc (pre.reverse.takeWhile (fun c => ¬(c = '\n'))).length
      < pre.reverse.length := length_takeWhile_lt_of_exists _ this
    _ = pre.length := List.length_reverse _

/-- Splitting on the paragraph-separator regex `/\n\s*\n/`: a separator
match starts at a newline whose maximal whitespace run contains a
second newline and extends (greedily) through the last newline of that
run.  Produces the pieces between separator matches, as JS
`text.split(/\n\s*\n/)` does (boundary empties included; the caller
filters). -/
def paraAux : List Char → List Char → List (List Char)
  | [], acc => [acc.reverse]
  | c :: rest, acc =>
    if h : c = '\n' ∧ 2 ≤ ((c :: rest).takeWhile isWsChar).countP (fun x => x = '\n') then
      acc.reverse ::
        paraAux (afterLastNl ((c :: rest).takeWhile isWsChar) ++ (c :: rest).dropWhile isWsChar) []
    else paraAux rest (c :: acc)
termination_by l _ => l.length
decreasing_by
  · have hcount := h.2
    have hex : ∃ x ∈ (c :: rest).takeWhile isWsChar, x = '\n' := by
      have hpos : 0 < ((c :: rest).takeWhile isWsChar).countP (fun x => x = '\n') :=
        Nat.lt_of_lt_of_le (by omega) hcount
      obtain ⟨a, ha, hpa⟩ := List.countP_pos_iff.mp hpos
      exact ⟨a, ha, by simpa using hpa⟩
    have hlt := afterLastNl_length_lt hex
    have hsplit : ((c :: rest).takeWhile isWsChar).length +
        ((c :: rest).dropWhile isWsChar).length = (c :: rest).length := by
      rw [← List.length_append, List.takeWhile_append_dropWhile]
    simp only [List.length_append]
    omega
  · simp only [List.length_cons]; omega

/-- JS `text.split(/\n\s*\n/)`. -/
def paraSplit (text : String) : List (List Char) := paraAux text.data []

/-- The `{score, interpretation}` pair of the readability report. -/
structure ScoreInterp where
  score : ℚ
  interpretation : String
deriving DecidableEq

/-- The `stats` block of the readability report. -/
structure RStats where
  wordCount : Nat
  sentenceCount : Nat
  syllableCount : Nat
  avgWordsPerSentence : ℚ
  avgSyllablesPerWord : ℚ
  readingTimeMinutes : ℚ
  paragraphCount : Nat
deriving DecidableEq

/-- The `ReadabilityResult` report shape of src/tools/readability.ts. -/
structure ReadabilityResult where
  fleschReadingEase : ScoreInterp
  fleschKincaidGrade : ScoreInterp
  stats : RStats
  tips : List String
deriving DecidableEq

/-- Output of `readability`: the error object or the report. -/
inductive ROut where
  | err (error : String)
  | ok (r : ReadabilityResult)
deriving DecidableEq

/-- The error message of the minimum-word-count guard. -/
def tooShortMsg : String :=
  "Text too short for meaningful analysis. Provide at least 10 words."

/-- JS `Math.round(x)` (half up), idealized on rationals. -/
def jsRound (q : ℚ) : ℤ := ⌊q + 1/2⌋

/-- JS `Math.round(x * 10) / 10` — round to one decimal. -/
def round1 (q : ℚ) : ℚ := ((⌊q * 10 + 1/2⌋ : ℤ) : ℚ) / 10

/-- JS `Math.round(x * 100) / 100` — round to two decimals. -/
def round2 (q : ℚ) : ℚ := ((⌊q * 100 + 1/2⌋ : ℤ) : ℚ) / 100

/-- Function `interpretFleschEase` of src/tools/readability.ts. -/
def interpretFleschEase (score : ℚ) : String :=
  if 90 ≤ score then "Very Easy (5th grade)"
  else if 80 ≤ score then "Easy (6th grade)"
  else if 70 ≤ score then "Fairly Easy (7th grade)"
  else if 60 ≤ score then "Standard (8th-9th grade)"
  else if 50 ≤ score then "Fairly Difficult (10th-12th grade)"
  else if 30 ≤ score then "Difficult (college level)"
  else "Very Difficult (graduate level)"

/-- Function `interpretGradeLevel` of src/tools/readability.ts. -/
def interpretGradeLevel (grade : ℚ) : String :=
  if grade ≤ 5 then "Elementary school level"
  else if grade ≤ 8 then "Middle school level"
  else if grade ≤ 12 then "High school level"
  else if grade ≤ 16 then "College level"
  else "Graduate level"

/-- The long-sentence tip, with the rounded average interpolated. -/
def sentenceTip (awps : ℚ) : String :=
  "Sentences are long (avg " ++ toString (jsRound awps) ++
    " words). Break them up for better readability."

/-- Function `readability` of src/tools/readability.ts.  The JS double formulas
are idealized over `ℚ`; `Math.round` is round-half-up. -/
def readability (text : String) : ROut :=
  let sentences := splitSentences text
  let words := splitWords text
  let paragraphs := (paraSplit text).filter (fun p => jsTrim (⟨p⟩ : String) ≠ "")
  let wordCount := words.length
  let sentenceCount := max sentences.length 1
  let syllableCount := (words.map countSyllables).sum
  if wordCount < 10 then .err tooShortMsg
  else
    let awps : ℚ := (wordCount : ℚ) / (sentenceCount : ℚ)
    let aspw : ℚ := (syllableCount : ℚ) / (wordCount : ℚ)
    let fleschEase : ℚ := 206835/1000 - 1015/1000 * awps - 846/10 * aspw
    let clampedEase := max 0 (min 100 (round1 fleschEase))
    let fkGrade : ℚ := 39/100 * awps + 118/10 * aspw - 1559/100
    let clampedGrade := max 0 (round1 fkGrade)
    let readingTimeMinutes := round1 ((wordCount : ℚ) / 238)
    let tips : List String :=
      (if 25 < awps then [sentenceTip awps] else []) ++
      (if 17/10 < aspw then
        ["Many complex words. Use simpler alternatives where possible."] else []) ++
      (if clampedEase < 50 then
        ["Text is difficult to read. Aim for a Flesch score of 60+ for general audiences."]
       else []) ++
      (if paragraphs.length = 1 ∧ 100 < wordCount then
        ["Single large paragraph. Break into smaller paragraphs for better scannability."]
       else [])
    .ok {
      fleschReadingEase := ⟨clampedEase, interpretFleschEase clampedEase⟩
      fleschKincaidGrade := ⟨clampedGrade, interpretGradeLevel clampedGrade⟩
      stats := {
        wordCount := wordCount
        sentenceCount := sentenceCount
        syllableCount := syllableCount
        avgWordsPerSentence := round1 awps
        avgSyllablesPerWord := round2 aspw
        readingTimeMinutes := readingTimeMinutes
        paragraphCount := paragraphs.length }
      tips := tips }

/-- Whether the readability output is a report (not an error). -/
def isROk : ROut → Bool
  | .err _ => false
  | .ok _ => true

/-- Structure `HeadingInfo` of src/utils/html.ts: a heading level (1–6 for
headings produced by `extractHeadings`) and its stripped text. -/
structure HeadingInfo where
  level : Nat
  text : String
deriving DecidableEq

/-- The `HeadingAnalysis` report shape of src/tools/heading-structure.ts.
`hierarchy` is the `{H1: …, …, H6: …}` count object, as an ordered
association list. -/
structure HeadingAnalysis where
  url : String
  headingCount : Nat
  headings : List HeadingInfo
  hierarchy : List (String × Nat)
  issues : List String
  outline : String
  score : String
deriving DecidableEq

/-- Number of headings of a given level. -/
def countLevel (lvl : Nat) : List HeadingInfo → Nat
  | [] => 0
  | h :: rest => (if h.level = lvl then 1 else 0) + countLevel lvl rest

/-- The missing-H1 issue text. -/
def missingH1Msg : String := "Missing H1 tag. Every page should have exactly one H1."

/-- The multiple-H1 issue text, reporting the count. -/
def multipleH1Msg (n : Nat) : String :=
  "Multiple H1 tags (" ++ toString n ++ "). Use only one H1 per page."

/-- The skipped-level issue text, with a 40-character preview of the
heading preceding the skip. -/
def skippedLevelMsg (prev next : Nat) (prevText : String) : String :=
  "Skipped heading level: H" ++ toString prev ++ " → H" ++ toString next ++
    " (after \x22" ++ prevText.take 40 ++ "\x22). Don\x27t skip levels."

/-- The wrong-first-heading issue text. -/
def firstHeadingMsg (lvl : Nat) : String :=
  "First heading is H" ++ toString lvl ++ ", not H1. Start with H1."

/-- The over-length heading issue text. -/
def longHeadingMsg (h : HeadingInfo) : String :=
  "H" ++ toString h.level ++ " \x22" ++ h.text.take 40 ++ "...\x22 is " ++
    toString h.text.length ++ " chars. Keep headings under 70 chars."

/-- The empty-structure issue text. -/
def noHeadingsMsg : String :=
  "No headings found on the page. Add headings to structure your content."

/-- The skipped-level scan: for every adjacent pair in document order,
flag the pair when the later level exceeds the earlier by more than 1. -/
def skippedIssues (headings : List HeadingInfo) : List String :=
  ((headings.zip headings.tail).map (fun p =>
    if p.1.level + 1 < p.2.level then [skippedLevelMsg p.1.level p.2.level p.1.text]
    else [])).flatten

/-- Function `headingStructure` of src/tools/heading-structure.ts, as a function
of the heading sequence extracted from the fetched page
(`extractHeadings(html)`); fetching and extraction are the external
collaborator stage.  Heading levels are 1–6 for extracted headings. -/
def headingStructure (url : String) (headings : List HeadingInfo) : HeadingAnalysis :=
  let h1 := countLevel 1 headings
  let hierarchy := [("H1", h1), ("H2", countLevel 2 headings),
    ("H3", countLevel 3 headings), ("H4", countLevel 4 headings),
    ("H5", countLevel 5 headings), ("H6", countLevel 6 headings)]
  let h1Issues :=
    if h1 = 0 then [missingH1Msg]
    else if 1 < h1 then [multipleH1Msg h1]
    else []
  let skipped := skippedIssues headings
  let firstIss :=
    match headings with
    | [] => []
    | h :: _ => if h.level ≠ 1 then [firstHeadingMsg h.level] else []
  let longIss := (headings.map (fun h =>
    if 70 < h.text.length then [longHeadingMsg h] else [])).flatten
  let emptyIss := if headings.isEmpty then [noHeadingsMsg] else []
  let issues := h1Issues ++ skipped ++ firstIss ++ longIss ++ emptyIss
  let outlineStr := String.intercalate "\n" (headings.map (fun h =>
    String.join (List.replicate (h.level - 1) "  ") ++ "H" ++ toString h.level ++
      ": " ++ h.text))
  let totalChecks := 4
  let passed := totalChecks - (if h1 = 0 then 1 else 0) - (if 1 < h1 then 1 else 0)
    - (if issues.any (fun i => jsIncludes i "Skipped") then 1 else 0)
    - (if (match headings with | [] => false | h :: _ => decide (h.level ≠ 1)) then 1 else 0)
  { url := url
    headingCount := headings.length
    headings := headings
    hierarchy := hierarchy
    issues := issues
    outline := if outlineStr = "" then "(no headings)" else outlineStr
    score := toString passed ++ "/" ++ toString totalChecks }

/-- Structure `MetaTag` of src/utils/html.ts. -/
structure MetaTag where
  property : Option String
  name : Option String
  content : String
deriving DecidableEq

/-- The per-field `{value, length, ok, tip}` block of the meta-tag
report (`length` is `titleLen || null`). -/
structure FieldReport where
  value : Option String
  length : Option Nat
  ok : Bool
  tip : Option String
deriving DecidableEq

/-- The `MetaAnalysis` report shape of src/tools/meta-tags.ts.  The
`openGraph`/`twitter`/`other` objects are ordered association lists. -/
structure MetaAnalysis where
  url : String
  title : FieldReport
  description : FieldReport
  canonical : Option String
  openGraph : List (String × String)
  twitter : List (String × String)
  other : List (String × String)
  issues : List String
  score : String
deriving DecidableEq

/-- JS object property write `obj[k] = v`: update in place or append. -/
def objSet (m : List (String × String)) (k v : String) : List (String × String) :=
  if m.any (fun p => p.1 = k) then
    m.map (fun p => if p.1 = k then (p.1, v) else p)
  else m ++ [(k, v)]

/-- JS object property read `obj[k]`, `undefined` as `none`. -/
def objGet (m : List (String × String)) (k : String) : Option String :=
  (m.find? (fun p => p.1 = k)).map (fun p => p.2)

/-- JS truthiness of a `string | null | undefined` value: `none` and the
empty string are falsy. -/
def jsTruthy : Option String → Bool
  | none => false
  | some s => s ≠ ""

/-- JS `o?.startsWith(pre)` used as a condition (`undefined` is falsy). -/
def optStartsWith (o : Option String) (pre : String) : Bool :=
  match o with
  | none => false
  | some s => s.startsWith pre

/-- The `og:`/`twitter:`/`other` grouping loop of `metaTags`. -/
def groupTags (tags : List MetaTag) :
    List (String × String) × List (String × String) × List (String × String) :=
  tags.foldl (fun acc tag =>
    let og := acc.1
    let tw := acc.2.1
    let ot := acc.2.2
    if optStartsWith tag.property "og:" then
      (objSet og (tag.property.getD "") tag.content, tw, ot)
    else if optStartsWith tag.name "twitter:" || optStartsWith tag.property "twitter:" then
      (og, objSet tw (match tag.name with | some n => n | none => tag.property.getD "") tag.content, ot)
    else
      match tag.name with
      | some n => if n ≠ "" ∧ n ≠ "description" then (og, tw, objSet ot n tag.content) else (og, tw, ot)
      | none => (og, tw, ot)) ([], [], [])

/-- Function `metaTags` of src/tools/meta-tags.ts, as a function of the values
the external stage extracts from the fetched page: `extractTitle(html)`,
`extractMetaTags(html)` and `extractCanonical(html)`.  Everything from
the `descTag` lookup through the scoring (source lines 26–99) is
modelled. -/
def metaTags (url : String) (title : Option String) (tags : List MetaTag)
    (canonical : Option String) : MetaAnalysis :=
  let description := (tags.find? (fun t => t.name = some "description")).map
    (fun t => t.content)
  let grouped := groupTags tags
  let og := grouped.1
  let tw := grouped.2.1
  let other := grouped.2.2
  let titleLen := (title.map String.length).getD 0
  let titleChecks :=
    if ¬ jsTruthy title then
      (false, some "Add a unique, descriptive title (50-60 characters)", ["Missing <title> tag"])
    else if titleLen < 30 then
      (true, some "Title is short. Aim for 50-60 characters for better CTR.", ([] : List String))
    else if 60 < titleLen then
      (true, some "Title may be truncated in SERPs. Keep under 60 characters.", ([] : List String))
    else (true, none, ([] : List String))
  let descLen := (description.map String.length).getD 0
  let descChecks :=
    if ¬ jsTruthy description then
      (false, some "Add a meta description (120-160 characters) to improve CTR.",
        ["Missing meta description"])
    else if descLen < 70 then
      (true, some "Description is short. Aim for 120-160 characters.", ([] : List String))
    else if 160 < descLen then
      (true, some "Description may be truncated. Keep under 160 characters.", ([] : List String))
    else (true, none, ([] : List String))
  let issues := titleChecks.2.2 ++ descChecks.2.2 ++
    (if ¬ jsTruthy (objGet og "og:title") then ["Missing og:title"] else []) ++
    (if ¬ jsTruthy (objGet og "og:description") then ["Missing og:description"] else []) ++
    (if ¬ jsTruthy (objGet og "og:image") then
      ["Missing og:image (no preview image for social shares)"] else []) ++
    (if ¬ jsTruthy (objGet og "og:url") then ["Missing og:url"] else []) ++
    (if ¬ jsTruthy (objGet tw "twitter:card") then ["Missing twitter:card"] else []) ++
    (if ¬ jsTruthy canonical then ["No canonical URL set"] else [])
  let totalChecks := 8
  let passed := totalChecks - issues.length
  { url := url
    title := ⟨title, if titleLen = 0 then none else some titleLen, titleChecks.1, titleChecks.2.1⟩
    description := ⟨description, if descLen = 0 then none else some descLen, descChecks.1,
      descChecks.2.1⟩
    canonical := canonical
    openGraph := og
    twitter := tw
    other := other
    issues := issues
    score := toString passed ++ "/" ++ toString totalChecks }

/-- The number of disjoint occurrences of `pat` found by a leftmost
greedy scan (each scan resumes right after the end of the previous
match).  This is the clean specification of what the source's
`indexOf`-advancing loop computes; `target_count_eq_disjoint` proves
the correspondence. -/
def disjointCount (pat : List Char) : List Char → Nat
  | [] => 0
  | c :: rest =>
    if h : pat ≠ [] ∧ pat.isPrefixOf (c :: rest) then
      1 + disjointCount pat ((c :: rest).drop pat.length)
    else disjointCount pat rest
termination_by s => s.length
decreasing_by
  · have hlen : 0 < pat.length := List.length_pos.mpr h.1
    simp only [List.length_drop, List.length_cons]
    omega
  · simp only [List.length_cons]; omega

/-- The number of all (possibly overlapping) occurrences of `pat` in
`s`: the number of positions where `pat` starts.  This follows the
claim's words ("count all possibly overlapping substring occurrences"),
for comparison with what the source computes. -/
def overlapCount (pat s : List Char) : Nat :=
  (List.range (s.length + 1)).countP (fun i => pat.isPrefixOf (s.drop i))

/-- No stop word appears in a keyword-density report: no top single
word is a stop word, and no member token of a top bigram/trigram phrase
is a stop word (an error output satisfies this vacuously). -/
def kOutNoStop : KOut → Prop
  | .err _ => True
  | .ok r =>
    (∀ e ∈ r.topSingleWords, STOP_WORDS.contains e.word = false) ∧
    (∀ e ∈ r.topBigrams, ∀ w ∈ e.phrase.splitOn " ", STOP_WORDS.contains w = false) ∧
    (∀ e ∈ r.topTrigrams, ∀ w ∈ e.phrase.splitOn " ", STOP_WORDS.contains w = false)

/-- The clamping invariants of a readability report: Flesch Reading
Ease in `[0, 100]` and Flesch-Kincaid Grade Level `≥ 0` (an error
output satisfies this vacuously). -/
def scoreBounds : ROut → Prop
  | .err _ => True
  | .ok r =>
    0 ≤ r.fleschReadingEase.score ∧ r.fleschReadingEase.score ≤ 100 ∧
      0 ≤ r.fleschKincaidGrade.score

theorem isPrefixOf_nil_eq {pat : List Char} (h : pat.isPrefixOf ([] : List Char) = true) :
    pat = [] := by
  cases pat with
  | nil => rfl
  | cons c rest => simp [List.isPrefixOf] at h

theorem isPrefixOf_length_le :
    ∀ {pat l : List Char}, pat.isPrefixOf l = true → pat.length ≤ l.length := by
  intro pat
  induction pat with
  | nil => intro l _; simp
  | cons a as ih =>
    intro l h
    cases l with
    | nil => simp [List.isPrefixOf] at h
    | cons b bs =>
      simp only [List.isPrefixOf, Bool.and_eq_true] at h
      simp only [List.length_cons]
      exact Nat.succ_le_succ (ih h.2)

theorem firstMatch_some (pat : List Char) :
    ∀ (s : List Char) (i : Nat), firstMatch pat s = some i →
      pat.isPrefixOf (s.drop i) = true ∧ i + pat.length ≤ s.length := by
  intro s
  induction s with
  | nil =>
    intro i h
    rw [firstMatch] at h
    by_cases hp : pat.isPrefixOf ([] : List Char)
    · rw [if_pos hp] at h
      cases h
      refine ⟨hp, ?_⟩
      have : pat = [] := isPrefixOf_nil_eq hp
      simp [this]
    · rw [if_neg hp] at h
      cases h
  | cons c rest ih =>
    intro i h
    rw [firstMatch] at h
    by_cases hp : pat.isPrefixOf (c :: rest)
    · rw [if_pos hp] at h
      cases h
      refine ⟨by simpa using hp, ?_⟩
      have := isPrefixOf_length_le hp
      simpa using this
    · rw [if_neg hp] at h
      obtain ⟨j, hj, hji⟩ := Option.map_eq_some'.mp h
      obtain ⟨hpre, hlen⟩ := ih j hj
      subst hji
      constructor
      · simpa [List.drop_succ_cons] using hpre
      · simp only [List.length_cons]
        omega

theorem disjointCount_of_firstMatch_none (pat : List Char) :
    ∀ s : List Char, firstMatch pat s = none → disjointCount pat s = 0 := by
  intro s
  induction s with
  | nil => intro _; rw [disjointCount]
  | cons c rest ih =>
    intro h
    rw [firstMatch] at h
    by_cases hp : pat.isPrefixOf (c :: rest)
    · rw [if_pos hp] at h; cases h
    · rw [if_neg hp] at h
      rw [disjointCount, dif_neg (by simp [hp]), ih (by simpa using h)]

theorem disjointCount_of_firstMatch_some (pat : List Char) (hne : pat ≠ []) :
    ∀ (s : List Char) (i : Nat), firstMatch pat s = some i →
      disjointCount pat s = 1 + disjointCount pat (s.drop (i + pat.length)) := by
  intro s
  induction s with
  | nil =>
    intro i h
    rw [firstMatch] at h
    have hp : ¬ pat.isPrefixOf ([] : List Char) := by
      intro hp
      exact hne (isPrefixOf_nil_eq hp)
    rw [if_neg hp] at h
    cases h
  | cons c rest ih =>
    intro i h
    rw [firstMatch] at h
    by_cases hp : pat.isPrefixOf (c :: rest)
    · rw [if_pos hp] at h
      cases h
      rw [disjointCount, dif_pos ⟨hne, hp⟩]
      simp
    · rw [if_neg hp] at h
      obtain ⟨j, hj, hji⟩ := Option.map_eq_some'.mp h
      subst hji
      rw [disjointCount, dif_neg (by simp [hp]), ih j hj]
      congr 1
      have : j + 1 + pat.length = (j + pat.length) + 1 := by omega
      rw [this, List.drop_succ_cons]

theorem countLoop_eq_disjoint (s pat : List Char) (hne : pat ≠ []) :
    ∀ (fuel idx : Nat), s.length + 1 ≤ fuel + idx →
      countLoopAux s pat fuel idx = disjointCount pat (s.drop idx) := by
  intro fuel
  induction fuel with
  | zero =>
    intro idx hle
    have hdrop : s.drop idx = [] := List.drop_eq_nil_of_le (by omega)
    rw [countLoopAux, hdrop, disjointCount]
  | succ fuel ih =>
    intro idx hle
    rw [countLoopAux]
    cases hfm : indexOfFrom s pat idx with
    | none =>
      have hnone : firstMatch pat (s.drop idx) = none := by
        unfold indexOfFrom at hfm
        exact Option.map_eq_none'.mp hfm
      rw [disjointCount_of_firstMatch_none pat _ hnone]
    | some i =>
      unfold indexOfFrom at hfm
      obtain ⟨j, hj, hji⟩ := Option.map_eq_some'.mp hfm
      obtain ⟨hpre, hjlen⟩ := firstMatch_some pat _ _ hj
      have hplen : 0 < pat.length := List.length_pos.mpr hne
      have hdlen : (s.drop idx).length = s.length - idx := List.length_drop idx s
      show 1 + countLoopAux s pat fuel (i + pat.length) = _
      rw [disjointCount_of_firstMatch_some pat hne _ _ hj, List.drop_drop,
        ih (i + pat.length) (by omega)]
      have hidx : i + pat.length = idx + (j + pat.length) := by omega
      rw [hidx]

/-- C1 (counterexample):  The claim says the multi-token target
count equals the number of all possibly-overlapping occurrences of the
normalized phrase in the space-joined token stream.  For the text
`"ab ab ab"` and the two-token phrase `"ab ab"`, the joined stream is
`"ab ab ab"`, the overlapping count is 2 (positions 0 and 3), but the
analyzer reports 1, because its loop resumes after the end of each
match. -/
theorem target_count_not_overlapping_cex :
    (targetWordsOf "ab ab").length = 2 ∧
    kTargetCount (keywordDensity "ab ab ab" (some "ab ab")) = some 1 ∧
    overlapCount (normTarget "ab ab").data
      (String.intercalate " " (tokenize "ab ab ab")).data = 2 := by
  refine ⟨by decide, by decide, by decide⟩

/-- C1 (amended):  For every input text (with a nonempty token
stream, the case in which a target is reported at all) and every
multi-token target phrase, the reported target count equals the number
of *disjoint* occurrences of the lowercased, trimmed phrase in the
space-joined token stream, found by leftmost greedy scanning — not the
possibly-overlapping count. -/
theorem target_count_eq_disjoint (text tk : String)
    (htok : tokenize text ≠ [])
    (hmulti : 2 ≤ (targetWordsOf tk).length) :
    kTargetCount (keywordDensity text (some tk)) =
      some (disjointCount (normTarget tk).data
        (String.intercalate " " (tokenize text)).data) := by
  have h0 : ¬ ((tokenize text).length = 0) := by
    intro h
    exact htok (List.length_eq_zero.mp h)
  have htk : ¬ (tk = "") := by
    intro h
    subst h
    exact absurd hmulti (by decide)
  have hne1 : ¬ ((jsSplitTrimmed (normTarget tk)).length = 1) := by
    unfold targetWordsOf at hmulti
    omega
  have hnet : (normTarget tk).data ≠ [] := by
    intro hdata
    have hempty : normTarget tk = "" := String.ext (by simp [hdata])
    rw [targetWordsOf, hempty] at hmulti
    exact absurd hmulti (by decide)
  simp only [keywordDensity, h0, if_false, kTargetCount, htk]
  rw [if_neg hne1]
  simp only [Option.map_some']
  congr 1
  have hlen : (String.intercalate " " (tokenize text)).length =
      (String.intercalate " " (tokenize text)).data.length := rfl
  have := countLoop_eq_disjoint (String.intercalate " " (tokenize text)).data
    (normTarget tk).data hnet ((String.intercalate " " (tokenize text)).length + 1) 0
    (by omega)
  simpa using this

/-- C1 (witness). -/
theorem target_count_eq_disjoint_witness :
    tokenize "ab ab ab" ≠ [] ∧ 2 ≤ (targetWordsOf "ab ab").length ∧
    kTargetCount (keywordDensity "ab ab ab" (some "ab ab")) =
      some (disjointCount (normTarget "ab ab").data
        (String.intercalate " " (tokenize "ab ab ab")).data) :=
  ⟨by decide, by decide, target_count_eq_disjoint "ab ab ab" "ab ab" (by decide) (by decide)⟩

theorem mem_insertEntry {p x : String × Nat} :
    ∀ {l : List (String × Nat)}, x ∈ insertEntry p l → x = p ∨ x ∈ l := by
  intro l
  induction l with
  | nil =>
    intro h
    rw [insertEntry] at h
    exact Or.inl (List.mem_singleton.mp h)
  | cons q rest ih =>
    intro h
    rw [insertEntry] at h
    by_cases hq : q.2 < p.2
    · rw [if_pos hq] at h
      rcases List.mem_cons.mp h with rfl | h2
      · exact Or.inl rfl
      · exact Or.inr h2
    · rw [if_neg hq] at h
      rcases List.mem_cons.mp h with rfl | h2
      · exact Or.inr (List.mem_cons_self _ _)
      · rcases ih h2 with rfl | h3
        · exact Or.inl rfl
        · exact Or.inr (List.mem_cons_of_mem _ h3)

theorem mem_sortByCountDesc {x : String × Nat} {l : List (String × Nat)} :
    x ∈ sortByCountDesc l → x ∈ l := by
  have main : ∀ (l acc : List (String × Nat)),
      x ∈ l.foldl (fun acc p => insertEntry p acc) acc → x ∈ acc ∨ x ∈ l := by
    intro l
    induction l with
    | nil => intro acc h; exact Or.inl h
    | cons p rest ih =>
      intro acc h
      rcases ih (insertEntry p acc) h with h2 | h2
      · rcases mem_insertEntry h2 with rfl | h3
        · exact Or.inr (List.mem_cons_self _ _)
        · exact Or.inl h3
      · exact Or.inr (List.mem_cons_of_mem _ h2)
  intro h
  rcases main l [] h with h2 | h2
  · cases h2
  · exact h2

theorem bump_keyPred (P : String → Prop) {m : List (String × Nat)} {k : String}
    (hm : ∀ q ∈ m, P q.1) (hk : P k) : ∀ q ∈ bump m k, P q.1 := by
  intro q hq
  rw [bump] at hq
  by_cases hc : m.any (fun p => p.1 = k)
  · rw [if_pos hc] at hq
    obtain ⟨p, hp, hpe⟩ := List.mem_map.mp hq
    by_cases hpk : p.1 = k
    · rw [if_pos hpk] at hpe
      rw [← hpe]
      exact hm p hp
    · rw [if_neg hpk] at hpe
      rw [← hpe]
      exact hm p hp
  · rw [if_neg hc] at hq
    rcases List.mem_append.mp hq with h2 | h2
    · exact hm q h2
    · rw [List.mem_singleton.mp h2]
      exact hk

theorem foldl_keyPred {α : Type} (P : String → Prop)
    (f : List (String × Nat) → α → List (String × Nat))
    (hf : ∀ m a, (∀ q ∈ m, P q.1) → ∀ q ∈ f m a, P q.1) :
    ∀ (l : List α) (init : List (String × Nat)),
      (∀ q ∈ init, P q.1) → ∀ q ∈ l.foldl f init, P q.1 := by
  intro l
  induction l with
  | nil => intro init hinit; exact hinit
  | cons a rest ih =>
    intro init hinit
    exact ih (f init a) (hf init a hinit)

theorem wordCounts_no_stop (words : List String) :
    ∀ q ∈ wordCountsOf words, STOP_WORDS.contains q.1 = false := by
  refine foldl_keyPred (fun w => STOP_WORDS.contains w = false) _ ?_ words [] (by intro q hq; cases hq)
  intro m w hm q hq
  by_cases hw : STOP_WORDS.contains w
  · rw [if_pos hw] at hq
    exact hm q hq
  · rw [if_neg hw] at hq
    exact bump_keyPred (fun w => STOP_WORDS.contains w = false) hm
      (Bool.of_not_eq_true hw) q hq

theorem ngrams_no_stop (words : List String) (n : Nat) :
    ∀ q ∈ getNgrams words n,
      (q.1.splitOn " ").any (fun w => STOP_WORDS.contains w) = false := by
  refine foldl_keyPred (fun g => (g.splitOn " ").any (fun w => STOP_WORDS.contains w) = false)
    _ ?_ (List.range (words.length + 1 - n)) [] (by intro q hq; cases hq)
  intro m i hm q hq
  by_cases hg : ((String.intercalate " " ((words.drop i).take n)).splitOn " ").any
      (fun w => STOP_WORDS.contains w)
  · rw [if_pos hg] at hq
    exact hm q hq
  · rw [if_neg hg] at hq
    exact bump_keyPred
      (fun g => (g.splitOn " ").any (fun w => STOP_WORDS.contains w) = false) hm
      (Bool.of_not_eq_true hg) q hq

/-- C6:  No stop word ever appears in a keyword-density report: no
entry of `topSingleWords` is a stop word, and no member token of any
`topBigrams`/`topTrigrams` phrase is a stop word. -/
theorem keywordDensity_no_stop_words (text : String) (tk : Option String) :
    kOutNoStop (keywordDensity text tk) := by
  rw [keywordDensity]
  by_cases h0 : (tokenize text).length = 0
  · rw [if_pos h0]
    trivial
  · rw [if_neg h0]
    refine ⟨?_, ?_, ?_⟩
    · intro e he
      obtain ⟨t, ht, hte⟩ := List.mem_map.mp he
      obtain ⟨p, hp, hpt⟩ := List.mem_map.mp ht
      have hmem : p ∈ wordCountsOf (tokenize text) :=
        mem_sortByCountDesc (List.mem_of_mem_take hp)
      have := wordCounts_no_stop (tokenize text) p hmem
      rw [← hte, ← hpt]
      exact this
    · intro e he w hw
      obtain ⟨t, ht, hte⟩ := List.mem_map.mp he
      obtain ⟨p, hp, hpt⟩ := List.mem_map.mp ht
      have hmem : p ∈ getNgrams (tokenize text) 2 :=
        mem_sortByCountDesc (List.mem_of_mem_take hp)
      have hall := ngrams_no_stop (tokenize text) 2 p hmem
      rw [← hte, ← hpt] at hw
      have := (List.any_eq_false.mp hall) w hw
      exact Bool.not_eq_true _ ▸ Bool.of_not_eq_true this
    · intro e he w hw
      obtain ⟨t, ht, hte⟩ := List.mem_map.mp he
      obtain ⟨p, hp, hpt⟩ := List.mem_map.mp ht
      have hmem : p ∈ getNgrams (tokenize text) 3 :=
        mem_sortByCountDesc (List.mem_of_mem_take hp)
      have hall := ngrams_no_stop (tokenize text) 3 p hmem
      rw [← hte, ← hpt] at hw
      have := (List.any_eq_false.mp hall) w hw
      exact Bool.not_eq_true _ ▸ Bool.of_not_eq_true this

/-- C5:  `readability` returns the too-short error object exactly
when the word count is strictly below 10; the 10-word, 2-sentence input
`"The cat sat. The dog ran far and ate food."` is scored, not
rejected. -/
theorem readability_tooShort_iff_lt_ten :
    (∀ text, readability text = ROut.err tooShortMsg ↔ (splitWords text).length < 10) ∧
    isROk (readability "The cat sat. The dog ran far and ate food.") = true := by
  constructor
  · intro text
    simp only [readability]
    by_cases h : (splitWords text).length < 10
    · rw [if_pos h]
      exact ⟨fun _ => h, fun _ => rfl⟩
    · rw [if_neg h]
      constructor
      · intro he
        cases he
      · intro hlt
        exact absurd hlt h
  · decide

/-- C7:  For every input that is scored (at least 10 words), the
Flesch Reading Ease score is clamped into `[0, 100]` and the
Flesch-Kincaid Grade Level is clamped to `≥ 0`. -/
theorem readability_score_bounds (text : String) : scoreBounds (readability text) := by
  simp only [readability]
  by_cases h : (splitWords text).length < 10
  · rw [if_pos h]
    trivial
  · rw [if_neg h]
    exact ⟨le_max_left 0 _, max_le (by norm_num) (min_le_left _ _), le_max_left 0 _⟩

/-- C8:  The degenerate-input guards: an empty token stream makes
`keywordDensity` return the `{error}` object, an empty word list makes
`readability` return its error object, and every non-error report has a
positive total word count and a positive sentence count — the
denominators of every division the analyzers perform — so no `NaN` or
`Infinity` can reach the output. -/
theorem degenerate_input_guards :
    (∀ text tk, tokenize text = [] → keywordDensity text tk = KOut.err noWordsMsg) ∧
    (∀ text, splitWords text = [] → readability text = ROut.err tooShortMsg) ∧
    (∀ text tk r, keywordDensity text tk = KOut.ok r → 0 < r.totalWords) ∧
    (∀ text r, readability text = ROut.ok r →
      10 ≤ r.stats.wordCount ∧ 1 ≤ r.stats.sentenceCount) := by
  refine ⟨?_, ?_, ?_, ?_⟩
  · intro text tk h
    simp [keywordDensity, h]
  · intro text h
    simp [readability, h]
  · intro text tk r h
    by_cases h0 : (tokenize text).length = 0
    · simp [keywordDensity, h0] at h
    · simp only [keywordDensity, if_neg h0] at h
      cases h
      exact Nat.pos_of_ne_zero h0
  · intro text r h
    by_cases h0 : (splitWords text).length < 10
    · simp [readability, if_pos h0] at h
    · simp only [readability, if_neg h0] at h
      cases h
      exact ⟨Nat.le_of_not_lt h0, le_max_right _ 1⟩

/-- C8 (witness). -/
theorem degenerate_input_guards_witness :
    keywordDensity "" none = KOut.err noWordsMsg ∧
    readability "" = ROut.err tooShortMsg :=
  ⟨degenerate_input_guards.1 "" none (by decide),
    degenerate_input_guards.2.1 "" (by decide)⟩

/-- C9:  Both text analyzers are pure functions of their input: on
equal inputs they produce equal reports (and hence byte-identical
serialized output), with no hidden state. -/
theorem analyzers_deterministic (t1 t2 : String) (tk1 tk2 : Option String)
    (ht : t1 = t2) (htk : tk1 = tk2) :
    keywordDensity t1 tk1 = keywordDensity t2 tk2 ∧ readability t1 = readability t2 := by
  subst ht
  subst htk
  exact ⟨rfl, rfl⟩

/-- C9 (witness). -/
theorem analyzers_deterministic_witness :
    keywordDensity "seo audit" (some "seo") = keywordDensity "seo audit" (some "seo") ∧
    readability "seo audit" = readability "seo audit" :=
  analyzers_deterministic "seo audit" "seo audit" (some "seo") (some "seo") rfl rfl

/-- C3:  The end-to-end example:
`keyword_density("the cat sat on the mat. the cat ran.", "cat")` reports
9 total words, a target count of 2, and a target density of
`"22.22%"`. -/
theorem keywordDensity_cat_example :
    kTotalWords (keywordDensity "the cat sat on the mat. the cat ran." (some "cat")) =
      some 9 ∧
    kTargetCount (keywordDensity "the cat sat on the mat. the cat ran." (some "cat")) =
      some 2 ∧
    kTargetDensity (keywordDensity "the cat sat on the mat. the cat ran." (some "cat")) =
      some "22.22%" :=
  ⟨by decide, by decide, by decide⟩

/-- C4:  A `[H1, H3]` heading sequence yields exactly the one
skipped-level issue (which names H1 and H3 and contains the marker the
scorer greps for); a `[H2, H1]` sequence yields exactly the
wrong-first-heading issue and no skipped-level issue, because a level
decrease is never a skip. -/
theorem headingStructure_skip_and_first_checks :
    (headingStructure "https://example.com/" [⟨1, "Intro"⟩, ⟨3, "Details"⟩]).issues =
      [skippedLevelMsg 1 3 "Intro"] ∧
    jsIncludes (skippedLevelMsg 1 3 "Intro") "Skipped" = true ∧
    jsIncludes (skippedLevelMsg 1 3 "Intro") "H1 → H3" = true ∧
    (headingStructure "https://example.com/" [⟨2, "Intro"⟩, ⟨1, "Details"⟩]).issues =
      [firstHeadingMsg 2] ∧
    (headingStructure "https://example.com/" [⟨2, "Intro"⟩, ⟨1, "Details"⟩]).issues.all
      (fun m => !(jsIncludes m "Skipped")) = true :=
  ⟨by decide, by decide, by decide, by decide, by decide⟩

/-- C10:  With no extracted headings, the report scores `"3/4"`
(only the H1-exists check fails), its issue list is exactly the
missing-H1 message followed by the no-headings message, and the outline
is `"(no headings)"`. -/
theorem headingStructure_empty_report :
    (headingStructure "https://example.com/" []).score = "3/4" ∧
    (headingStructure "https://example.com/" []).issues = [missingH1Msg, noHeadingsMsg] ∧
    (headingStructure "https://example.com/" []).outline = "(no headings)" :=
  ⟨by decide, by decide, by decide⟩

/-- C2 (counterexample):  On a page whose markup contains only
`<title>Short</title>` (no meta description, no Open Graph, Twitter or
canonical tags — extraction yields title `"Short"`, no tags, no
canonical), the analyzer pushes 7 issues (missing description, four OG,
twitter:card, canonical), so the score is `"1/8"`, not the claimed
`"3/8"`. -/
theorem metaTags_short_title_score_cex :
    (metaTags "https://example.com/" (some "Short") [] none).issues.length = 7 ∧
    (metaTags "https://example.com/" (some "Short") [] none).score = "1/8" ∧
    ¬((metaTags "https://example.com/" (some "Short") [] none).score = "3/8") :=
  ⟨by decide, by decide, by decide⟩

/-- C2 (amended):  On that input the analyzer reports
`title.ok = true` with the short-title tip, `description.ok = false`
with the missing-description issue, and a score of `"1/8"` (8 checks,
7 failed: description, og:title, og:description, og:image, og:url,
twitter:card, canonical). -/
theorem metaTags_short_title_report :
    (metaTags "https://example.com/" (some "Short") [] none).title.ok = true ∧
    (metaTags "https://example.com/" (some "Short") [] none).title.tip =
      some "Title is short. Aim for 50-60 characters for better CTR." ∧
    (metaTags "https://example.com/" (some "Short") [] none).description.ok = false ∧
    "Missing meta description" ∈
      (metaTags "https://example.com/" (some "Short") [] none).issues ∧
    (metaTags "https://example.com/" (some "Short") [] none).score = "1/8" :=
  ⟨by decide, by decide, by decide, by decide, by decide⟩

example :
    kTotalWords (keywordDensity "the cat sat on the mat. the cat ran." (some "cat")) = some 9 ∧
    kTargetCount (keywordDensity "the cat sat on the mat. the cat ran." (some "cat")) = some 2 ∧
    kTargetDensity (keywordDensity "the cat sat on the mat. the cat ran." (some "cat")) =
      some "22.22%" := by decide

example : kTargetCount (keywordDensity "ab ab ab" (some "ab ab")) = some 1 := by decide
